import Mathlib

/-!
Verification development for the voicetypr command layer:
`src-tauri/src/commands/logs.rs` (log retention sweeper, folder opener) and
`src-tauri/src/commands/reset.rs` (application state reset orchestrator).

The Rust code is shallowly embedded: every interaction with the outside
world (path resolution, filesystem existence and deletion, the secure
vault, external commands, event emission) is an input read from an
environment record, and each embedded function is a pure function of that
environment, mirroring the source control flow line by line.  Conditional
compilation (`cfg(target_os = ...)`) selects exactly one platform per
build; the embedding fixes the Linux build, whose platform blocks are the
`dconf` invocation and the unconditional "System permissions (N/A on
Linux)" entry.
-/

namespace Voicetypr

/-! ### String primitives

The embeddings below use character-list implementations of the `str`
operations the Rust code calls (`starts_with`, `ends_with`, `strip_prefix`,
`strip_suffix`, `contains`) and of the chrono numeric-field scanner, so
that every definition reduces inside the kernel.  All names involved are
ASCII, where byte-wise and character-wise operations coincide. -/

def isPre (p s : List Char) : Bool :=
  match p, s with
  | [], _ => true
  | _ :: _, [] => false
  | a :: as, b :: bs => a == b && isPre as bs

def strStartsWith (s p : String) : Bool :=
  isPre p.data s.data

def strEndsWith (s p : String) : Bool :=
  isPre p.data.reverse s.data.reverse

def strDrop (s : String) (n : Nat) : String :=
  ⟨s.data.drop n⟩

def strDropRight (s : String) (n : Nat) : String :=
  ⟨s.data.take (s.data.length - n)⟩

def digitsToNat (l : List Char) : Nat :=
  l.foldl (fun n c => n * 10 + (c.toNat - 48)) 0

/-- Leading-whitespace skip, as the `s.trim_left()` chrono performs before
parsing each numeric field (here for the ASCII whitespace characters,
which coincide with Unicode whitespace on all ASCII file names). -/
def skipWs : List Char → List Char
  | [] => []
  | c :: t => if c.isWhitespace then skipWs t else c :: t

/-- The maximal leading digit run and the remainder. -/
def spanDigits : List Char → List Char × List Char
  | [] => ([], [])
  | c :: t =>
    if c.isDigit then
      let p := spanDigits t
      (c :: p.1, p.2)
    else ([], c :: t)

def listContains (sub : List Char) : List Char → Bool
  | [] => isPre sub []
  | c :: t => isPre sub (c :: t) || listContains sub t

/-- Rust `str::contains` with a literal pattern: substring occurrence. -/
def strContains (s sub : String) : Bool :=
  listContains sub.data s.data

/-! ### Calendar dates

`chrono::NaiveDate` is a proleptic Gregorian calendar date.  Comparison of
two dates and subtraction of a day count are both reflected faithfully by
the standard civil-days (rata die) encoding below, so the embedding
compares day numbers exactly where the source compares dates. -/

structure NaiveDate where
  year : Int
  month : Nat
  day : Nat
deriving DecidableEq, Repr

def isLeapYear (y : Int) : Bool :=
  (y % 4 == 0 && y % 100 != 0) || (y % 400 == 0)

def daysInMonth (y : Int) (m : Nat) : Nat :=
  if m == 2 then (if isLeapYear y then 29 else 28)
  else if m == 4 || m == 6 || m == 9 || m == 11 then 30
  else 31

/-- Day number of a civil date (days since 1970-01-01), the standard
days-from-civil algorithm; agrees with chrono date ordering and with
subtracting a `chrono::Duration::days` count.  Lean integer division is
euclidean, i.e. floor division for the positive divisors used here, so
`y / 400` is the floor-division era for negative years as well. -/
def NaiveDate.toRataDie (dt : NaiveDate) : Int :=
  let y : Int := if dt.month ≤ 2 then dt.year - 1 else dt.year
  let m : Int := (dt.month : Int)
  let d : Int := (dt.day : Int)
  let era : Int := y / 400
  let yoe : Int := y - era * 400
  let mp : Int := (m + 9) % 12
  let doy : Int := (153 * mp + 2) / 5 + d - 1
  let doe : Int := yoe * 365 + yoe / 4 - yoe / 100 + doy
  era * 146097 + doe - 719468

/-- The `%Y` field as chrono 0.4 format/parse.rs reads it: leading
whitespace is skipped; a `-` or `+` sign admits an unbounded digit run
(minimum one digit); an unsigned year reads at most four digits
(minimum one). -/
def parseYear (l : List Char) : Option (Int × List Char) :=
  match skipWs l with
  | '-' :: t =>
    let p := spanDigits t
    if p.1.isEmpty then none else some (-(digitsToNat p.1 : Int), p.2)
  | '+' :: t =>
    let p := spanDigits t
    if p.1.isEmpty then none else some ((digitsToNat p.1 : Int), p.2)
  | l2 =>
    let p := spanDigits l2
    let ds := p.1.take 4
    if ds.isEmpty then none
    else some ((digitsToNat ds : Int), p.1.drop 4 ++ p.2)

/-- The `%m` and `%d` fields as chrono reads them: leading whitespace is
skipped, then at most two digits (minimum one), unsigned. -/
def parseNum2 (l : List Char) : Option (Nat × List Char) :=
  let p := spanDigits (skipWs l)
  let ds := p.1.take 2
  if ds.isEmpty then none
  else some (digitsToNat ds, p.1.drop 2 ++ p.2)

/-- `NaiveDate::parse_from_str(s, "%Y-%m-%d")` (logs.rs line 39), after
chrono 0.4 format/parse.rs: `%Y` is an optionally signed year (at most
four digits when unsigned, any number of digits when signed), each `-` of
the format is a literal matched exactly, `%m` and `%d` are one or two
digit numbers, the whole string must be consumed, and the resolved date
must be a valid proleptic Gregorian date with year inside the chrono
`NaiveDate` range, -262144 to 262143 (`i32::MIN >> 13` to
`i32::MAX >> 13`); anything else is a parse error. -/
def parse_ymd (s : String) : Option NaiveDate :=
  match parseYear s.data with
  | none => none
  | some (y, r1) =>
    match r1 with
    | '-' :: r2 =>
      match parseNum2 r2 with
      | none => none
      | some (m, r3) =>
        match r3 with
        | '-' :: r4 =>
          match parseNum2 r4 with
          | none => none
          | some (d, r5) =>
            if r5.isEmpty then
              if -262144 ≤ y ∧ y ≤ 262143 ∧
                 1 ≤ m ∧ m ≤ 12 ∧ 1 ≤ d ∧ d ≤ daysInMonth y m then
                some ⟨y, m, d⟩
              else none
            else none
        | _ => none
    | _ => none

/-! ### Log retention sweeper (`clear_old_logs`, logs.rs lines 5-52) -/

/-- One directory entry as observed by the sweep loop.  `readFail` models
the `Result` wrapper around each `read_dir` item, `deleteFail` models
`fs::remove_file` failing on this entry (`none` = the operation succeeds). -/
structure FsEntry where
  readFail : Option String
  name : String
  isFile : Bool
  deleteFail : Option String
deriving DecidableEq, Repr

/-- Environment of one `clear_old_logs` call: `log_dir_ok` models
`app.path().app_log_dir()` succeeding, `dir_present` models
`log_dir.exists()`, `read_dir_fail` models `fs::read_dir` failing. -/
structure LogEnv where
  log_dir_ok : Bool
  dir_present : Bool
  read_dir_fail : Option String
  entries : List FsEntry
deriving DecidableEq, Repr

/-- logs.rs line 33: `file_name.starts_with("voicetypr-") && file_name.ends_with(".log")`. -/
def matches_convention (name : String) : Bool :=
  strStartsWith name "voicetypr-" && strEndsWith name ".log"

/-- logs.rs lines 34-37: `strip_prefix("voicetypr-")` then
`strip_suffix(".log")`, `unwrap_or("")` (the prefix is 10 characters, the
suffix 4). -/
def date_str_of (name : String) : String :=
  if strStartsWith name "voicetypr-" then
    let rest := strDrop name 10
    if strEndsWith rest ".log" then strDropRight rest 4 else ""
  else ""

def date_of_name (name : String) : Option NaiveDate :=
  parse_ymd (date_str_of name)

/-- The `for entry in entries` loop of logs.rs lines 22-49, threading the
running `deleted_count` and (for specification purposes) the list of file
names deleted so far; a `?` propagation aborts with the deletions already
committed. -/
def sweep_logs (today : NaiveDate) (days : Nat) :
    List FsEntry → Nat → List String → Except String Nat × List String
  | [], count, deleted => (Except.ok count, deleted)
  | e :: rest, count, deleted =>
    match e.readFail with
    | some msg => (Except.error ("Failed to read directory entry: " ++ msg), deleted)
    | none =>
      if e.isFile then
        if matches_convention e.name then
          match date_of_name e.name with
          | some d =>
            if d.toRataDie < today.toRataDie - (days : Int) then
              match e.deleteFail with
              | some msg =>
                (Except.error ("Failed to delete log file: " ++ msg), deleted)
              | none => sweep_logs today days rest (count + 1) (deleted ++ [e.name])
            else sweep_logs today days rest count deleted
          | none => sweep_logs today days rest count deleted
        else sweep_logs today days rest count deleted
      else sweep_logs today days rest count deleted

/-- `clear_old_logs(app, days_to_keep)` (logs.rs lines 5-52).  `today` is
`Local::now().date_naive()`.  The second component is the list of names
actually deleted, in order (the filesystem effect of the call); the first
is the returned `Result<u32, String>` (the count stays far below `2^32`
because it is bounded by the directory size, so `Nat` is faithful). -/
def clear_old_logs (env : LogEnv) (days_to_keep : Nat) (today : NaiveDate) :
    Except String Nat × List String :=
  if env.log_dir_ok = false then
    (Except.error "Failed to get log directory: path error", [])
  else if env.dir_present = false then
    (Except.ok 0, [])
  else
    match env.read_dir_fail with
    | some msg => (Except.error ("Failed to read log directory: " ++ msg), [])
    | none => sweep_logs today days_to_keep env.entries 0 []


/-! ### Reset orchestrator (`reset_app_data`, reset.rs lines 5-401)

The returned record of reset.rs lines 5-10. -/

structure ResetResult where
  success : Bool
  errors : List String
  cleared_items : List String
deriving DecidableEq, Repr

instance exceptDecEq {ε α : Type} [DecidableEq ε] [DecidableEq α] :
    DecidableEq (Except ε α) := fun x y =>
  match x, y with
  | Except.ok a, Except.ok b =>
    if h : a = b then isTrue (by rw [h]) else isFalse (fun hc => h (Except.ok.inj hc))
  | Except.error a, Except.error b =>
    if h : a = b then isTrue (by rw [h]) else isFalse (fun hc => h (Except.error.inj hc))
  | Except.ok _, Except.error _ => isFalse (fun hc => Except.noConfusion hc)
  | Except.error _, Except.ok _ => isFalse (fun hc => Except.noConfusion hc)

/-- Environment of one `reset_app_data` run on the Linux build: every
collaborator outcome the function reads, one field per call site.
`Except String Unit` fields model the `Result` of a fallible operation,
`Bool` fields model an `if let Ok(..)` acquisition or a `.exists()` probe,
and `dconf_output` models `Command::new("dconf").output()` (`none` = spawn
error, `some b` = ran with `status.success() = b`).  The three
`app_data_dir` fields correspond to the three separate
`app.path().app_data_dir()` calls at reset.rs lines 48, 60 and 109. -/
structure ResetEnv where
  settings_store_ok : Bool
  settings_save : Except String Unit
  transcriptions_store_ok : Bool
  transcriptions_save : Except String Unit
  app_data_dir1_ok : Bool
  stores_dir_present : Bool
  stores_dir_remove : Except String Unit
  app_data_dir2_ok : Bool
  models_present : Bool
  models_remove : Except String Unit
  parakeet_v3_present : Bool
  parakeet_v3_remove : Except String Unit
  parakeet_v2_present : Bool
  parakeet_v2_remove : Except String Unit
  recordings_present : Bool
  recordings_remove : Except String Unit
  vault_delete : Except String Unit
  app_data_dir3_ok : Bool
  secure_dat_present : Bool
  secure_dat_remove : Except String Unit
  cache_dir_ok : Bool
  cache_dir_present : Bool
  cache_dir_remove : Except String Unit
  dconf_output : Option Bool
  api_key_cache_clear : Except String Unit
  emit_result : Except String Unit
deriving DecidableEq, Repr

/-! Each block of the source mutates the two vectors `errors` and
`cleared_items`; the embedding threads them as an accumulator pair
`(errors, cleared_items)`, one `apply` function per source block, composed
in source order. -/

/-- reset.rs lines 25-32: clear and save the settings store. -/
def apply_settings (env : ResetEnv) (acc : List String × List String) :
    List String × List String :=
  if env.settings_store_ok then
    match env.settings_save with
    | Except.error e => (acc.1 ++ ["Failed to save cleared settings store: " ++ e], acc.2)
    | Except.ok _ => (acc.1, acc.2 ++ ["Settings store"])
  else acc

/-- reset.rs lines 35-45: clear and save the transcriptions store. -/
def apply_transcriptions (env : ResetEnv) (acc : List String × List String) :
    List String × List String :=
  if env.transcriptions_store_ok then
    match env.transcriptions_save with
    | Except.error e => (acc.1 ++ ["Failed to save cleared transcriptions store: " ++ e], acc.2)
    | Except.ok _ => (acc.1, acc.2 ++ ["Transcriptions store"])
  else acc

/-- reset.rs lines 48-57: delete the on-disk stores directory. -/
def apply_stores_dir (env : ResetEnv) (acc : List String × List String) :
    List String × List String :=
  if env.app_data_dir1_ok then
    if env.stores_dir_present then
      match env.stores_dir_remove with
      | Except.error e => (acc.1 ++ ["Failed to delete stores directory: " ++ e], acc.2)
      | Except.ok _ => (acc.1, acc.2 ++ ["Stores directory"])
    else acc
  else acc

/-- reset.rs lines 62-69: delete the models directory. -/
def apply_models (env : ResetEnv) (acc : List String × List String) :
    List String × List String :=
  if env.app_data_dir2_ok then
    if env.models_present then
      match env.models_remove with
      | Except.error e => (acc.1 ++ ["Failed to delete models directory: " ++ e], acc.2)
      | Except.ok _ => (acc.1, acc.2 ++ ["Downloaded models"])
    else acc
  else acc

/-- reset.rs lines 73-85, first loop iteration: the
`parakeet-tdt-0.6b-v3` directory. -/
def apply_parakeet_v3 (env : ResetEnv) (acc : List String × List String) :
    List String × List String :=
  if env.app_data_dir2_ok then
    if env.parakeet_v3_present then
      match env.parakeet_v3_remove with
      | Except.error e => (acc.1 ++ ["Failed to delete Parakeet directory: " ++ e], acc.2)
      | Except.ok _ => (acc.1, acc.2 ++ ["Parakeet model data"])
    else acc
  else acc

/-- reset.rs lines 73-85, second loop iteration: the
`parakeet-tdt-0.6b-v2` directory. -/
def apply_parakeet_v2 (env : ResetEnv) (acc : List String × List String) :
    List String × List String :=
  if env.app_data_dir2_ok then
    if env.parakeet_v2_present then
      match env.parakeet_v2_remove with
      | Except.error e => (acc.1 ++ ["Failed to delete Parakeet directory: " ++ e], acc.2)
      | Except.ok _ => (acc.1, acc.2 ++ ["Parakeet model data"])
    else acc
  else acc

/-- reset.rs lines 88-95: delete the recordings directory. -/
def apply_recordings (env : ResetEnv) (acc : List String × List String) :
    List String × List String :=
  if env.app_data_dir2_ok then
    if env.recordings_present then
      match env.recordings_remove with
      | Except.error e => (acc.1 ++ ["Failed to delete recordings directory: " ++ e], acc.2)
      | Except.ok _ => (acc.1, acc.2 ++ ["Audio recordings"])
    else acc
  else acc

/-- reset.rs lines 99-106: delete the license entry from the secure
vault; an error whose message contains "Store access failed" (the vault
backing store does not exist) is deliberately not recorded. -/
def apply_license_vault (env : ResetEnv) (acc : List String × List String) :
    List String × List String :=
  match env.vault_delete with
  | Except.error e =>
    if strContains e "Store access failed" then acc
    else (acc.1 ++ ["Failed to clear license: " ++ e], acc.2)
  | Except.ok _ => (acc.1, acc.2 ++ ["License data"])

/-- reset.rs lines 109-118: remove the `secure.dat` file. -/
def apply_secure_dat (env : ResetEnv) (acc : List String × List String) :
    List String × List String :=
  if env.app_data_dir3_ok then
    if env.secure_dat_present then
      match env.secure_dat_remove with
      | Except.error e => (acc.1 ++ ["Failed to remove secure storage: " ++ e], acc.2)
      | Except.ok _ => (acc.1, acc.2 ++ ["Secure storage (API keys)"])
    else acc
  else acc

/-- reset.rs lines 121-129: delete the platform cache directory. -/
def apply_cache_dir (env : ResetEnv) (acc : List String × List String) :
    List String × List String :=
  if env.cache_dir_ok then
    if env.cache_dir_present then
      match env.cache_dir_remove with
      | Except.error e => (acc.1 ++ ["Failed to clear cache: " ++ e], acc.2)
      | Except.ok _ => (acc.1, acc.2 ++ ["Cache directory"])
    else acc
  else acc

/-- reset.rs lines 186-203 (the Linux block): run `dconf reset`; only a
spawned command that exits successfully records an entry, a failing exit
or a spawn error records nothing. -/
def apply_dconf (env : ResetEnv) (acc : List String × List String) :
    List String × List String :=
  match env.dconf_output with
  | some true => (acc.1, acc.2 ++ ["GSettings/dconf preferences"])
  | some false => acc
  | none => acc

/-- reset.rs lines 346-350 (the Linux block): unconditional no-op entry
for the absent centralized permission registry. -/
def apply_permissions (_env : ResetEnv) (acc : List String × List String) :
    List String × List String :=
  (acc.1, acc.2 ++ ["System permissions (N/A on Linux)"])

/-- reset.rs lines 352-358: clear the whisper runtime manager under its
write lock; this step has no error path. -/
def apply_runtime (_env : ResetEnv) (acc : List String × List String) :
    List String × List String :=
  (acc.1, acc.2 ++ ["Runtime state"])

/-- reset.rs lines 361-365: clear the process-wide API key cache. -/
def apply_api_key_cache (env : ResetEnv) (acc : List String × List String) :
    List String × List String :=
  match env.api_key_cache_clear with
  | Except.error e => (acc.1 ++ ["Failed to clear API key cache: " ++ e], acc.2)
  | Except.ok _ => (acc.1, acc.2 ++ ["AI API key cache"])

/-- reset.rs lines 384-386: emit the `app-reset` event; a failure is
recorded as an error, a success records nothing. -/
def apply_emit (env : ResetEnv) (acc : List String × List String) :
    List String × List String :=
  match env.emit_result with
  | Except.error e => (acc.1 ++ ["Failed to emit reset event: " ++ e], acc.2)
  | Except.ok _ => acc

/-- `reset_app_data(app)` (reset.rs lines 13-401, Linux build): the source
blocks in source order, threading the `errors` and `cleared_items`
vectors; at the end `success = errors.is_empty()` (line 388) and the
function returns `Ok(ResetResult { .. })` (lines 396-400).  The macOS-only
`killall cfprefsd` block (lines 368-381) records nothing in either vector
on any outcome and is absent from the Linux build. -/
def reset_app_data (env : ResetEnv) : Except String ResetResult :=
  let acc : List String × List String := ([], [])
  let acc := apply_settings env acc
  let acc := apply_transcriptions env acc
  let acc := apply_stores_dir env acc
  let acc := apply_models env acc
  let acc := apply_parakeet_v3 env acc
  let acc := apply_parakeet_v2 env acc
  let acc := apply_recordings env acc
  let acc := apply_license_vault env acc
  let acc := apply_secure_dat env acc
  let acc := apply_cache_dir env acc
  let acc := apply_dconf env acc
  let acc := apply_permissions env acc
  let acc := apply_runtime env acc
  let acc := apply_api_key_cache env acc
  let acc := apply_emit env acc
  Except.ok { success := acc.1.isEmpty, errors := acc.1, cleared_items := acc.2 }

/-! ### Per-step contributions and the decomposition of a run -/

def settings_contrib (env : ResetEnv) : List String × List String :=
  apply_settings env ([], [])

def transcriptions_contrib (env : ResetEnv) : List String × List String :=
  apply_transcriptions env ([], [])

def stores_dir_contrib (env : ResetEnv) : List String × List String :=
  apply_stores_dir env ([], [])

def models_contrib (env : ResetEnv) : List String × List String :=
  apply_models env ([], [])

def parakeet_v3_contrib (env : ResetEnv) : List String × List String :=
  apply_parakeet_v3 env ([], [])

def parakeet_v2_contrib (env : ResetEnv) : List String × List String :=
  apply_parakeet_v2 env ([], [])

def recordings_contrib (env : ResetEnv) : List String × List String :=
  apply_recordings env ([], [])

def license_vault_contrib (env : ResetEnv) : List String × List String :=
  apply_license_vault env ([], [])

def secure_dat_contrib (env : ResetEnv) : List String × List String :=
  apply_secure_dat env ([], [])

def cache_dir_contrib (env : ResetEnv) : List String × List String :=
  apply_cache_dir env ([], [])

def dconf_contrib (env : ResetEnv) : List String × List String :=
  apply_dconf env ([], [])

def permissions_contrib (env : ResetEnv) : List String × List String :=
  apply_permissions env ([], [])

def runtime_contrib (env : ResetEnv) : List String × List String :=
  apply_runtime env ([], [])

def api_key_cache_contrib (env : ResetEnv) : List String × List String :=
  apply_api_key_cache env ([], [])

def emit_contrib (env : ResetEnv) : List String × List String :=
  apply_emit env ([], [])

/-- The contribution of each of the fifteen steps on its own, in
execution order. -/
def step_contribs (env : ResetEnv) : List (List String × List String) :=
  [settings_contrib env,
   transcriptions_contrib env,
   stores_dir_contrib env,
   models_contrib env,
   parakeet_v3_contrib env,
   parakeet_v2_contrib env,
   recordings_contrib env,
   license_vault_contrib env,
   secure_dat_contrib env,
   cache_dir_contrib env,
   dconf_contrib env,
   permissions_contrib env,
   runtime_contrib env,
   api_key_cache_contrib env,
   emit_contrib env]

def errs_of (l : List (List String × List String)) : List String :=
  (l.map Prod.fst).flatten

def clears_of (l : List (List String × List String)) : List String :=
  (l.map Prod.snd).flatten

theorem apply_settings_acc (env : ResetEnv) (acc : List String × List String) :
    apply_settings env acc =
      (acc.1 ++ (settings_contrib env).1, acc.2 ++ (settings_contrib env).2) := by
  unfold settings_contrib apply_settings
  repeat' split
  all_goals simp_all

theorem apply_stores_dir_acc (env : ResetEnv) (acc : List String × List String) :
    apply_stores_dir env acc =
      (acc.1 ++ (stores_dir_contrib env).1, acc.2 ++ (stores_dir_contrib env).2) := by
  unfold stores_dir_contrib apply_stores_dir
  repeat' split
  all_goals simp_all

theorem apply_transcriptions_acc (env : ResetEnv) (acc : List String × List String) :
    apply_transcriptions env acc =
      (acc.1 ++ (transcriptions_contrib env).1, acc.2 ++ (transcriptions_contrib env).2) := by
  unfold transcriptions_contrib apply_transcriptions
  repeat' split
  all_goals simp_all

theorem apply_models_acc (env : ResetEnv) (acc : List String × List String) :
    apply_models env acc =
      (acc.1 ++ (models_contrib env).1, acc.2 ++ (models_contrib env).2) := by
  unfold models_contrib apply_models
  repeat' split
  all_goals simp_all

theorem apply_parakeet_v3_acc (env : ResetEnv) (acc : List String × List String) :
    apply_parakeet_v3 env acc =
      (acc.1 ++ (parakeet_v3_contrib env).1, acc.2 ++ (parakeet_v3_contrib env).2) := by
  unfold parakeet_v3_contrib apply_parakeet_v3
  repeat' split
  all_goals simp_all

theorem apply_parakeet_v2_acc (env : ResetEnv) (acc : List String × List String) :
    apply_parakeet_v2 env acc =
      (acc.1 ++ (parakeet_v2_contrib env).1, acc.2 ++ (parakeet_v2_contrib env).2) := by
  unfold parakeet_v2_contrib apply_parakeet_v2
  repeat' split
  all_goals simp_all

theorem apply_recordings_acc (env : ResetEnv) (acc : List String × List String) :
    apply_recordings env acc =
      (acc.1 ++ (recordings_contrib env).1, acc.2 ++ (recordings_contrib env).2) := by
  unfold recordings_contrib apply_recordings
  repeat' split
  all_goals simp_all

theorem apply_license_vault_acc (env : ResetEnv) (acc : List String × List String) :
    apply_license_vault env acc =
      (acc.1 ++ (license_vault_contrib env).1, acc.2 ++ (license_vault_contrib env).2) := by
  unfold license_vault_contrib apply_license_vault
  repeat' split
  all_goals simp_all

theorem apply_secure_dat_acc (env : ResetEnv) (acc : List String × List String) :
    apply_secure_dat env acc =
      (acc.1 ++ (secure_dat_contrib env).1, acc.2 ++ (secure_dat_contrib env).2) := by
  unfold secure_dat_contrib apply_secure_dat
  repeat' split
  all_goals simp_all

theorem apply_cache_dir_acc (env : ResetEnv) (acc : List String × List String) :
    apply_cache_dir env acc =
      (acc.1 ++ (cache_dir_contrib env).1, acc.2 ++ (cache_dir_contrib env).2) := by
  unfold cache_dir_contrib apply_cache_dir
  repeat' split
  all_goals simp_all

theorem apply_dconf_acc (env : ResetEnv) (acc : List String × List String) :
    apply_dconf env acc =
      (acc.1 ++ (dconf_contrib env).1, acc.2 ++ (dconf_contrib env).2) := by
  unfold dconf_contrib apply_dconf
  repeat' split
  all_goals simp_all

theorem apply_permissions_acc (env : ResetEnv) (acc : List String × List String) :
    apply_permissions env acc =
      (acc.1 ++ (permissions_contrib env).1, acc.2 ++ (permissions_contrib env).2) := by
  unfold permissions_contrib apply_permissions
  simp

theorem apply_runtime_acc (env : ResetEnv) (acc : List String × List String) :
    apply_runtime env acc =
      (acc.1 ++ (runtime_contrib env).1, acc.2 ++ (runtime_contrib env).2) := by
  unfold runtime_contrib apply_runtime
  simp

theorem apply_api_key_cache_acc (env : ResetEnv) (acc : List String × List String) :
    apply_api_key_cache env acc =
      (acc.1 ++ (api_key_cache_contrib env).1, acc.2 ++ (api_key_cache_contrib env).2) := by
  unfold api_key_cache_contrib apply_api_key_cache
  repeat' split
  all_goals simp_all

theorem apply_emit_acc (env : ResetEnv) (acc : List String × List String) :
    apply_emit env acc =
      (acc.1 ++ (emit_contrib env).1, acc.2 ++ (emit_contrib env).2) := by
  unfold emit_contrib apply_emit
  repeat' split
  all_goals simp_all

theorem settings_contrib_clears (env : ResetEnv) :
    ∀ x ∈ (settings_contrib env).2, x = "Settings store" := by
  unfold settings_contrib apply_settings
  repeat' split
  all_goals simp

theorem transcriptions_contrib_clears (env : ResetEnv) :
    ∀ x ∈ (transcriptions_contrib env).2, x = "Transcriptions store" := by
  unfold transcriptions_contrib apply_transcriptions
  repeat' split
  all_goals simp

theorem license_vault_contrib_clears (env : ResetEnv) :
    ∀ x ∈ (license_vault_contrib env).2, x = "License data" := by
  unfold license_vault_contrib apply_license_vault
  repeat' split
  all_goals simp

theorem dconf_contrib_clears (env : ResetEnv) :
    ∀ x ∈ (dconf_contrib env).2, x = "GSettings/dconf preferences" := by
  unfold dconf_contrib apply_dconf
  repeat' split
  all_goals simp

theorem permissions_contrib_clears (env : ResetEnv) :
    ∀ x ∈ (permissions_contrib env).2, x = "System permissions (N/A on Linux)" := by
  unfold permissions_contrib apply_permissions
  simp

theorem runtime_contrib_clears (env : ResetEnv) :
    ∀ x ∈ (runtime_contrib env).2, x = "Runtime state" := by
  unfold runtime_contrib apply_runtime
  simp

theorem api_key_cache_contrib_clears (env : ResetEnv) :
    ∀ x ∈ (api_key_cache_contrib env).2, x = "AI API key cache" := by
  unfold api_key_cache_contrib apply_api_key_cache
  repeat' split
  all_goals simp

theorem emit_contrib_clears (env : ResetEnv) : (emit_contrib env).2 = [] := by
  unfold emit_contrib apply_emit
  repeat' split
  all_goals simp

theorem stores_dir_contrib_absent (env : ResetEnv)
    (h : env.stores_dir_present = false) : stores_dir_contrib env = ([], []) := by
  unfold stores_dir_contrib apply_stores_dir
  rw [h]
  split <;> simp

theorem models_contrib_absent (env : ResetEnv)
    (h : env.models_present = false) : models_contrib env = ([], []) := by
  unfold models_contrib apply_models
  rw [h]
  split <;> simp

theorem parakeet_v3_contrib_absent (env : ResetEnv)
    (h : env.parakeet_v3_present = false) : parakeet_v3_contrib env = ([], []) := by
  unfold parakeet_v3_contrib apply_parakeet_v3
  rw [h]
  split <;> simp

theorem parakeet_v2_contrib_absent (env : ResetEnv)
    (h : env.parakeet_v2_present = false) : parakeet_v2_contrib env = ([], []) := by
  unfold parakeet_v2_contrib apply_parakeet_v2
  rw [h]
  split <;> simp

theorem recordings_contrib_absent (env : ResetEnv)
    (h : env.recordings_present = false) : recordings_contrib env = ([], []) := by
  unfold recordings_contrib apply_recordings
  rw [h]
  split <;> simp

theorem secure_dat_contrib_absent (env : ResetEnv)
    (h : env.secure_dat_present = false) : secure_dat_contrib env = ([], []) := by
  unfold secure_dat_contrib apply_secure_dat
  rw [h]
  split <;> simp

theorem cache_dir_contrib_absent (env : ResetEnv)
    (h : env.cache_dir_present = false) : cache_dir_contrib env = ([], []) := by
  unfold cache_dir_contrib apply_cache_dir
  rw [h]
  split <;> simp

/-- A whole run is the concatenation of the fifteen independent per-step
contributions, in execution order, with `success` computed from the
accumulated errors; the `Err` branch of the return type is never used. -/
theorem reset_decomp (env : ResetEnv) :
    reset_app_data env =
      Except.ok { success := (errs_of (step_contribs env)).isEmpty,
                  errors := errs_of (step_contribs env),
                  cleared_items := clears_of (step_contribs env) } := by
  simp only [reset_app_data, step_contribs, errs_of, clears_of,
    apply_settings_acc, apply_transcriptions_acc, apply_stores_dir_acc,
    apply_models_acc, apply_parakeet_v3_acc, apply_parakeet_v2_acc,
    apply_recordings_acc, apply_license_vault_acc, apply_secure_dat_acc,
    apply_cache_dir_acc, apply_dconf_acc, apply_permissions_acc,
    apply_runtime_acc, apply_api_key_cache_acc, apply_emit_acc,
    List.map_cons, List.map_nil, List.flatten_cons, List.flatten_nil,
    List.nil_append, List.append_nil, List.append_assoc]

/-! ### Folder opener (`open_logs_folder`, logs.rs lines 62-105) -/

/-- The externally visible actions of `open_logs_folder`, in order:
`fs::create_dir_all` on the log directory, and spawning the platform file
browser (`xdg-open` on the Linux build) on it. -/
inductive FolderAction where
  | createDir
  | spawnBrowser
deriving DecidableEq, Repr

/-- Environment of one `open_logs_folder` call: path resolution, the
`log_dir.exists()` probe, and the failure modes of `create_dir_all` and of
spawning the browser process. -/
structure OpenEnv where
  log_dir_ok : Bool
  dir_present : Bool
  create_fail : Option String
  spawn_fail : Option String
deriving DecidableEq, Repr

/-- `open_logs_folder(app)` (logs.rs lines 62-105, Linux build): the
returned `Result` paired with the trace of actions attempted, in order. -/
def open_logs_folder (env : OpenEnv) : Except String Unit × List FolderAction :=
  if env.log_dir_ok = false then
    (Except.error "Failed to get log directory: path error", [])
  else if env.dir_present = false then
    match env.create_fail with
    | some m =>
      (Except.error ("Failed to create log directory: " ++ m), [FolderAction.createDir])
    | none =>
      match env.spawn_fail with
      | some m =>
        (Except.error ("Failed to open folder: " ++ m),
         [FolderAction.createDir, FolderAction.spawnBrowser])
      | none => (Except.ok (), [FolderAction.createDir, FolderAction.spawnBrowser])
  else
    match env.spawn_fail with
    | some m => (Except.error ("Failed to open folder: " ++ m), [FolderAction.spawnBrowser])
    | none => (Except.ok (), [FolderAction.spawnBrowser])

/-! ### Concrete reset environments used by witnesses and counterexamples -/

/-- A run in which every target is present and every operation succeeds. -/
def all_ok_env : ResetEnv :=
  { settings_store_ok := true, settings_save := Except.ok (),
    transcriptions_store_ok := true, transcriptions_save := Except.ok (),
    app_data_dir1_ok := true, stores_dir_present := true,
    stores_dir_remove := Except.ok (),
    app_data_dir2_ok := true, models_present := true,
    models_remove := Except.ok (),
    parakeet_v3_present := true, parakeet_v3_remove := Except.ok (),
    parakeet_v2_present := true, parakeet_v2_remove := Except.ok (),
    recordings_present := true, recordings_remove := Except.ok (),
    vault_delete := Except.ok (),
    app_data_dir3_ok := true, secure_dat_present := true,
    secure_dat_remove := Except.ok (),
    cache_dir_ok := true, cache_dir_present := true,
    cache_dir_remove := Except.ok (),
    dconf_output := some true, api_key_cache_clear := Except.ok (),
    emit_result := Except.ok () }

/-- The cleared labels of a fully successful first run. -/
def all_clear_labels : List String :=
  ["Settings store", "Transcriptions store", "Stores directory",
   "Downloaded models", "Parakeet model data", "Parakeet model data",
   "Audio recordings", "License data", "Secure storage (API keys)",
   "Cache directory", "GSettings/dconf preferences",
   "System permissions (N/A on Linux)", "Runtime state", "AI API key cache"]

/-- An otherwise fully successful run whose secure-vault deletion reports
the given error (the first-run case is an error message containing
"Store access failed"). -/
def vault_absent_env (e : String) : ResetEnv :=
  { all_ok_env with vault_delete := Except.error e }

/-- The cleared labels of a fully successful run whose secure vault has
never been written: every label except "License data". -/
def absent_vault_labels : List String :=
  ["Settings store", "Transcriptions store", "Stores directory",
   "Downloaded models", "Parakeet model data", "Parakeet model data",
   "Audio recordings", "Secure storage (API keys)",
   "Cache directory", "GSettings/dconf preferences",
   "System permissions (N/A on Linux)", "Runtime state", "AI API key cache"]

/-- The environment of a second `reset_app_data` run immediately after a
run that cleared everything: no filesystem target exists any more, the
secure vault backing store is gone (its deletion reports the
"Store access failed" first-run error), `dconf` has nothing to reset, and
the store plugin recreates empty stores whose save succeeds. -/
def cleared_env : ResetEnv :=
  { settings_store_ok := true, settings_save := Except.ok (),
    transcriptions_store_ok := true, transcriptions_save := Except.ok (),
    app_data_dir1_ok := true, stores_dir_present := false,
    stores_dir_remove := Except.ok (),
    app_data_dir2_ok := true, models_present := false,
    models_remove := Except.ok (),
    parakeet_v3_present := false, parakeet_v3_remove := Except.ok (),
    parakeet_v2_present := false, parakeet_v2_remove := Except.ok (),
    recordings_present := false, recordings_remove := Except.ok (),
    vault_delete := Except.error "Store access failed: store does not exist",
    app_data_dir3_ok := true, secure_dat_present := false,
    secure_dat_remove := Except.ok (),
    cache_dir_ok := true, cache_dir_present := false,
    cache_dir_remove := Except.ok (),
    dconf_output := some false, api_key_cache_clear := Except.ok (),
    emit_result := Except.ok () }

/-- What the second run of the C9 scenario actually returns. -/
def second_run_result : ResetResult :=
  { success := true, errors := [],
    cleared_items := ["Settings store", "Transcriptions store",
      "System permissions (N/A on Linux)", "Runtime state", "AI API key cache"] }

/-- The labels a run against already-cleared filesystem state can still
produce: exactly the non-filesystem steps. -/
def non_fs_labels : List String :=
  ["Settings store", "Transcriptions store", "License data",
   "GSettings/dconf preferences", "System permissions (N/A on Linux)",
   "Runtime state", "AI API key cache"]

/-- An otherwise fully successful run in which the settings-store
acquisition fails (the `if let Ok(store)` at reset.rs line 25 takes the
`Err` path) and the `dconf` spawn fails (reset.rs line 190): two failing
steps that the source records in neither vector. -/
def c2_fail_env : ResetEnv :=
  { all_ok_env with settings_store_ok := false, dconf_output := none }

/-- The cleared labels of the `c2_fail_env` run: everything except the
settings store and dconf entries. -/
def c2_fail_labels : List String :=
  ["Transcriptions store", "Stores directory", "Downloaded models",
   "Parakeet model data", "Parakeet model data", "Audio recordings",
   "License data", "Secure storage (API keys)", "Cache directory",
   "System permissions (N/A on Linux)", "Runtime state", "AI API key cache"]

/-- An otherwise fully successful run in which the settings-store save and
the event emission fail: two fallible operations that each record exactly
one error message. -/
def mixed_fail_env : ResetEnv :=
  { all_ok_env with settings_save := Except.error "disk full",
                    emit_result := Except.error "channel closed" }

/-! ### Sweep loop lemmas -/

def env_c5 : LogEnv :=
  { log_dir_ok := true, dir_present := true, read_dir_fail := none,
    entries := [⟨none, "app-2020-01-01.log", true, none⟩,
                ⟨none, "app-2099-01-01.log", true, none⟩,
                ⟨none, "readme.txt", true, none⟩] }

/-- C5 counterexample: with the directory of the spec scenario
(`app-2020-01-01.log`, `app-2099-01-01.log`, `readme.txt`),
retention 30 and today fixed at 2024-06-01, `clear_old_logs` deletes
nothing and returns 0, because the required filename prefix in the code is
"voicetypr-", not "app-"; the claimed outcome (return 1, one deletion) is
false. -/
theorem clear_old_logs_c5_counterexample :
    clear_old_logs env_c5 30 ⟨2024, 6, 1⟩ = (Except.ok 0, []) ∧
    clear_old_logs env_c5 30 ⟨2024, 6, 1⟩ ≠
      (Except.ok 1, ["app-2020-01-01.log"]) := by
  have h : clear_old_logs env_c5 30 ⟨2024, 6, 1⟩ = (Except.ok 0, []) := by rfl
  refine ⟨h, ?_⟩
  rw [h]
  intro hc
  have h1 := congrArg Prod.fst hc
  simp only at h1
  injection h1 with h2
  exact absurd h2 (by decide)

def env_c5v : LogEnv :=
  { log_dir_ok := true, dir_present := true, read_dir_fail := none,
    entries := [⟨none, "voicetypr-2020-01-01.log", true, none⟩,
                ⟨none, "voicetypr-2099-01-01.log", true, none⟩,
                ⟨none, "readme.txt", true, none⟩] }

/-- C5 amended: with the file names carrying the prefix the code actually
requires (`voicetypr-2020-01-01.log`, `voicetypr-2099-01-01.log`,
`readme.txt`), retention 30 and today fixed at 2024-06-01,
`clear_old_logs` deletes only `voicetypr-2020-01-01.log` and returns 1. -/
theorem clear_old_logs_c5_amended :
    clear_old_logs env_c5v 30 ⟨2024, 6, 1⟩ =
      (Except.ok 1, ["voicetypr-2020-01-01.log"]) := by
  rfl

/-- C1: for every run of `reset_app_data`, under every subset of injected
step failures, the returned `ResetResult` has `success = true` exactly
when its `errors` sequence is empty. -/
theorem reset_success_iff_no_errors (env : ResetEnv) (r : ResetResult)
    (h : reset_app_data env = Except.ok r) :
    r.success = true ↔ r.errors = [] := by
  rw [reset_decomp env] at h
  have h2 := Except.ok.inj h
  rw [← h2]
  simp only
  generalize errs_of (step_contribs env) = E
  cases E <;> simp [List.isEmpty]

/-- Witness for C1 at a fully successful run. -/
theorem reset_success_iff_no_errors_witness :
    (ResetResult.mk true [] all_clear_labels).success = true ↔
    (ResetResult.mk true [] all_clear_labels).errors = [] :=
  reset_success_iff_no_errors all_ok_env ⟨true, [], all_clear_labels⟩ (by rfl)

/-- C2 counterexample: a run in which the settings-store acquisition
fails (reset.rs line 25) and the `dconf` spawn fails (reset.rs lines
190-202).  Both of these steps fail, yet neither appends any message —
the run finishes with an empty `errors` and even reports success — so
"every failure of a step appends exactly one message to `errors`" is
false of the code. -/
theorem reset_step_failure_without_message :
    reset_app_data c2_fail_env =
      Except.ok { success := true, errors := [],
                  cleared_items := c2_fail_labels } ∧
    (settings_contrib c2_fail_env).1 = [] ∧
    (settings_contrib c2_fail_env).2 = [] ∧
    (dconf_contrib c2_fail_env).1 = [] ∧
    (dconf_contrib c2_fail_env).2 = [] := by
  refine ⟨rfl, rfl, rfl, rfl, rfl⟩

/-- C2 amended: execution continues past every step unconditionally.
Every run is the concatenation of the fifteen per-step contributions in
the fixed order, each a function of that step alone, so no step failure
skips a later step and all fifteen steps are attempted on every run.
Each step appends at most one message to `errors`: a failure of the
fallible operation inside a step (store save, directory or file removal,
a non-absent vault error, API-key cache clear, event emission) appends
exactly one message, while a failed store acquisition, a failed path
resolution or a failed or absent external command appends none. -/
theorem reset_every_step_attempted (env : ResetEnv) :
    (reset_app_data env =
      Except.ok { success := (errs_of (step_contribs env)).isEmpty,
                  errors := errs_of (step_contribs env),
                  cleared_items := clears_of (step_contribs env) }
    ∧ (step_contribs env).length = 15
    ∧ ∀ p ∈ step_contribs env, p.1.length ≤ 1)
    ∧ ((∀ e, env.settings_store_ok = true → env.settings_save = Except.error e →
        (settings_contrib env).1 = ["Failed to save cleared settings store: " ++ e])
    ∧ (∀ e, env.transcriptions_store_ok = true →
        env.transcriptions_save = Except.error e →
        (transcriptions_contrib env).1 =
          ["Failed to save cleared transcriptions store: " ++ e])
    ∧ (∀ e, env.app_data_dir1_ok = true → env.stores_dir_present = true →
        env.stores_dir_remove = Except.error e →
        (stores_dir_contrib env).1 = ["Failed to delete stores directory: " ++ e])
    ∧ (∀ e, env.app_data_dir2_ok = true → env.models_present = true →
        env.models_remove = Except.error e →
        (models_contrib env).1 = ["Failed to delete models directory: " ++ e])
    ∧ (∀ e, env.app_data_dir2_ok = true → env.parakeet_v3_present = true →
        env.parakeet_v3_remove = Except.error e →
        (parakeet_v3_contrib env).1 = ["Failed to delete Parakeet directory: " ++ e])
    ∧ (∀ e, env.app_data_dir2_ok = true → env.parakeet_v2_present = true →
        env.parakeet_v2_remove = Except.error e →
        (parakeet_v2_contrib env).1 = ["Failed to delete Parakeet directory: " ++ e])
    ∧ (∀ e, env.app_data_dir2_ok = true → env.recordings_present = true →
        env.recordings_remove = Except.error e →
        (recordings_contrib env).1 = ["Failed to delete recordings directory: " ++ e])
    ∧ (∀ e, env.vault_delete = Except.error e →
        strContains e "Store access failed" = false →
        (license_vault_contrib env).1 = ["Failed to clear license: " ++ e])
    ∧ (∀ e, env.app_data_dir3_ok = true → env.secure_dat_present = true →
        env.secure_dat_remove = Except.error e →
        (secure_dat_contrib env).1 = ["Failed to remove secure storage: " ++ e])
    ∧ (∀ e, env.cache_dir_ok = true → env.cache_dir_present = true →
        env.cache_dir_remove = Except.error e →
        (cache_dir_contrib env).1 = ["Failed to clear cache: " ++ e])
    ∧ (∀ e, env.api_key_cache_clear = Except.error e →
        (api_key_cache_contrib env).1 = ["Failed to clear API key cache: " ++ e])
    ∧ (∀ e, env.emit_result = Except.error e →
        (emit_contrib env).1 = ["Failed to emit reset event: " ++ e]))
    ∧ ((env.settings_store_ok = false → (settings_contrib env).1 = [])
    ∧ (env.transcriptions_store_ok = false → (transcriptions_contrib env).1 = [])
    ∧ (env.app_data_dir1_ok = false → (stores_dir_contrib env).1 = [])
    ∧ (env.app_data_dir2_ok = false →
        (models_contrib env).1 = [] ∧ (parakeet_v3_contrib env).1 = [] ∧
        (parakeet_v2_contrib env).1 = [] ∧ (recordings_contrib env).1 = [])
    ∧ (env.app_data_dir3_ok = false → (secure_dat_contrib env).1 = [])
    ∧ (env.cache_dir_ok = false → (cache_dir_contrib env).1 = [])
    ∧ (dconf_contrib env).1 = []) := by
  refine ⟨⟨reset_decomp env, rfl, ?_⟩, ?_, ?_⟩
  · intro p hp
    simp only [step_contribs, List.mem_cons, List.not_mem_nil, or_false] at hp
    rcases hp with h|h|h|h|h|h|h|h|h|h|h|h|h|h|h
    all_goals subst h
    all_goals
      simp only [settings_contrib, transcriptions_contrib, stores_dir_contrib,
        models_contrib, parakeet_v3_contrib, parakeet_v2_contrib,
        recordings_contrib, license_vault_contrib, secure_dat_contrib,
        cache_dir_contrib, dconf_contrib, permissions_contrib, runtime_contrib,
        api_key_cache_contrib, emit_contrib,
        apply_settings, apply_transcriptions, apply_stores_dir, apply_models,
        apply_parakeet_v3, apply_parakeet_v2, apply_recordings,
        apply_license_vault, apply_secure_dat, apply_cache_dir, apply_dconf,
        apply_permissions, apply_runtime, apply_api_key_cache, apply_emit]
    all_goals repeat' split
    all_goals simp
  · refine ⟨?_, ?_, ?_, ?_, ?_, ?_, ?_, ?_, ?_, ?_, ?_, ?_⟩
    · intro e h1 h2
      unfold settings_contrib apply_settings
      rw [h1]
      simp [h2]
    · intro e h1 h2
      unfold transcriptions_contrib apply_transcriptions
      rw [h1]
      simp [h2]
    · intro e h1 h2 h3
      unfold stores_dir_contrib apply_stores_dir
      rw [h1, h2]
      simp [h3]
    · intro e h1 h2 h3
      unfold models_contrib apply_models
      rw [h1, h2]
      simp [h3]
    · intro e h1 h2 h3
      unfold parakeet_v3_contrib apply_parakeet_v3
      rw [h1, h2]
      simp [h3]
    · intro e h1 h2 h3
      unfold parakeet_v2_contrib apply_parakeet_v2
      rw [h1, h2]
      simp [h3]
    · intro e h1 h2 h3
      unfold recordings_contrib apply_recordings
      rw [h1, h2]
      simp [h3]
    · intro e h1 h2
      unfold license_vault_contrib apply_license_vault
      rw [h1]
      simp [h2]
    · intro e h1 h2 h3
      unfold secure_dat_contrib apply_secure_dat
      rw [h1, h2]
      simp [h3]
    · intro e h1 h2 h3
      unfold cache_dir_contrib apply_cache_dir
      rw [h1, h2]
      simp [h3]
    · intro e h1
      unfold api_key_cache_contrib apply_api_key_cache
      simp [h1]
    · intro e h1
      unfold emit_contrib apply_emit
      simp [h1]
  · refine ⟨?_, ?_, ?_, ?_, ?_, ?_, ?_⟩
    · intro h
      unfold settings_contrib apply_settings
      simp [h]
    · intro h
      unfold transcriptions_contrib apply_transcriptions
      simp [h]
    · intro h
      unfold stores_dir_contrib apply_stores_dir
      simp [h]
    · intro h
      refine ⟨?_, ?_, ?_, ?_⟩
      · unfold models_contrib apply_models
        simp [h]
      · unfold parakeet_v3_contrib apply_parakeet_v3
        simp [h]
      · unfold parakeet_v2_contrib apply_parakeet_v2
        simp [h]
      · unfold recordings_contrib apply_recordings
        simp [h]
    · intro h
      unfold secure_dat_contrib apply_secure_dat
      simp [h]
    · intro h
      unfold cache_dir_contrib apply_cache_dir
      simp [h]
    · unfold dconf_contrib apply_dconf
      repeat' split
      all_goals simp

/-- Witness for the amended C2: a run in which the settings-store save
and the event emission fail records exactly one message for each, while
the dconf step (which cannot record an error) records none. -/
theorem reset_every_step_attempted_witness :
    (step_contribs mixed_fail_env).length = 15 ∧
    (settings_contrib mixed_fail_env).1 =
      ["Failed to save cleared settings store: disk full"] ∧
    (emit_contrib mixed_fail_env).1 =
      ["Failed to emit reset event: channel closed"] ∧
    (dconf_contrib mixed_fail_env).1 = [] := by
  obtain ⟨⟨_, hlen, _⟩,
    ⟨hset, _, _, _, _, _, _, _, _, _, _, hemit⟩,
    ⟨_, _, _, _, _, _, hdconf⟩⟩ := reset_every_step_attempted mixed_fail_env
  exact ⟨hlen, hset "disk full" rfl rfl, hemit "channel closed" rfl, hdconf⟩

/-- C3: `reset_app_data` never uses the `Err` branch of its return type:
every run, under every combination of internal step failures (event
emission included), returns `Ok` of a `ResetResult`. -/
theorem reset_never_returns_err (env : ResetEnv) :
    ∃ r, reset_app_data env = Except.ok r :=
  ⟨_, reset_decomp env⟩

/-- C8: a secure-vault deletion error whose message contains
"Store access failed" (the vault has never been written) contributes
nothing to `errors`, while any other vault error contributes exactly the
one license message; with every other step succeeding, a run against an
absent vault still reports overall success with an empty `errors` list,
and no "License data" entry is recorded. -/
theorem vault_absent_not_error :
    (∀ (env : ResetEnv) (e : String), env.vault_delete = Except.error e →
      license_vault_contrib env =
        (if strContains e "Store access failed" then ([], [])
         else (["Failed to clear license: " ++ e], [])))
    ∧ ∀ e : String, strContains e "Store access failed" = true →
      reset_app_data (vault_absent_env e) =
        Except.ok { success := true, errors := [],
                    cleared_items := absent_vault_labels } ∧
      "License data" ∉ absent_vault_labels := by
  constructor
  · intro env e h
    unfold license_vault_contrib apply_license_vault
    rw [h]
    split <;> simp_all
  · intro e he
    constructor
    · rw [reset_decomp]
      have hv : license_vault_contrib (vault_absent_env e) = ([], []) := by
        unfold license_vault_contrib apply_license_vault vault_absent_env all_ok_env
        simp [he]
      simp only [step_contribs, hv]
      simp [errs_of, clears_of,
        settings_contrib, transcriptions_contrib, stores_dir_contrib,
        models_contrib, parakeet_v3_contrib, parakeet_v2_contrib,
        recordings_contrib, secure_dat_contrib, cache_dir_contrib,
        dconf_contrib, permissions_contrib, runtime_contrib,
        api_key_cache_contrib, emit_contrib,
        apply_settings, apply_transcriptions, apply_stores_dir, apply_models,
        apply_parakeet_v3, apply_parakeet_v2, apply_recordings,
        apply_secure_dat, apply_cache_dir, apply_dconf,
        apply_permissions, apply_runtime, apply_api_key_cache, apply_emit,
        vault_absent_env, all_ok_env, absent_vault_labels]
    · decide

/-- Witness for C8 at a concrete first-run vault error. -/
theorem vault_absent_not_error_witness :
    license_vault_contrib (vault_absent_env "Store access failed: NoEntry") = ([], []) ∧
    reset_app_data (vault_absent_env "Store access failed: NoEntry") =
      Except.ok { success := true, errors := [],
                  cleared_items := absent_vault_labels } := by
  constructor
  · have h := vault_absent_not_error.1 (vault_absent_env "Store access failed: NoEntry")
      "Store access failed: NoEntry" rfl
    rw [h]
    rfl
  · exact (vault_absent_not_error.2 "Store access failed: NoEntry" (by rfl)).1

/-- C9 counterexample: a second run against fully cleared state still
records "Settings store", "Transcriptions store",
"System permissions (N/A on Linux)" and "AI API key cache" in
`cleared_items`, so the second run's `cleared_items` is not contained in
the runtime-clear/event-emission set claimed (event emission never
contributes a `cleared_items` entry at all, so that set is at most
the "Runtime state" entry). -/
theorem reset_second_run_counterexample :
    reset_app_data cleared_env = Except.ok second_run_result ∧
    ¬ second_run_result.cleared_items ⊆ ["Runtime state"] := by
  constructor
  · rfl
  · intro hsub
    have h := hsub (show "Settings store" ∈ second_run_result.cleared_items by
      simp [second_run_result])
    simp at h

/-- C9 amended: a second run against already-cleared filesystem state
records no filesystem-backed item in `cleared_items` (its entries come
only from the non-filesystem steps: the store saves, the license vault,
dconf, the permissions no-op, the runtime clear and the API key cache —
never from event emission, which contributes no entry), and it always
contains the unconditional "Runtime state" and
"System permissions (N/A on Linux)" entries. -/
theorem reset_cleared_state_amended (env : ResetEnv)
    (h1 : env.stores_dir_present = false) (h2 : env.models_present = false)
    (h3 : env.parakeet_v3_present = false) (h4 : env.parakeet_v2_present = false)
    (h5 : env.recordings_present = false) (h6 : env.secure_dat_present = false)
    (h7 : env.cache_dir_present = false) (r : ResetResult)
    (hr : reset_app_data env = Except.ok r) :
    r.cleared_items ⊆ non_fs_labels ∧
    "Runtime state" ∈ r.cleared_items ∧
    "System permissions (N/A on Linux)" ∈ r.cleared_items := by
  rw [reset_decomp] at hr
  have hinj := Except.ok.inj hr
  rw [← hinj]
  have e1 := stores_dir_contrib_absent env h1
  have e2 := models_contrib_absent env h2
  have e3 := parakeet_v3_contrib_absent env h3
  have e4 := parakeet_v2_contrib_absent env h4
  have e5 := recordings_contrib_absent env h5
  have e6 := secure_dat_contrib_absent env h6
  have e7 := cache_dir_contrib_absent env h7
  refine ⟨?_, ?_, ?_⟩
  · intro x hx
    simp only [step_contribs, clears_of, List.map_cons, List.map_nil,
      List.flatten_cons, List.flatten_nil, e1, e2, e3, e4, e5, e6, e7,
      emit_contrib_clears, List.append_nil, List.nil_append,
      List.mem_append, List.not_mem_nil, or_false, false_or] at hx
    rcases hx with hx|hx|hx|hx|hx|hx|hx
    · rw [settings_contrib_clears env x hx]; simp [non_fs_labels]
    · rw [transcriptions_contrib_clears env x hx]; simp [non_fs_labels]
    · rw [license_vault_contrib_clears env x hx]; simp [non_fs_labels]
    · rw [dconf_contrib_clears env x hx]; simp [non_fs_labels]
    · rw [permissions_contrib_clears env x hx]; simp [non_fs_labels]
    · rw [runtime_contrib_clears env x hx]; simp [non_fs_labels]
    · rw [api_key_cache_contrib_clears env x hx]; simp [non_fs_labels]
  · have hrt : runtime_contrib env = ([], ["Runtime state"]) := rfl
    simp [step_contribs, clears_of, hrt]
  · have hpm : permissions_contrib env = ([], ["System permissions (N/A on Linux)"]) := rfl
    simp [step_contribs, clears_of, hpm]

/-- Witness for the amended C9 at the concrete cleared-state run. -/
theorem reset_cleared_state_amended_witness :
    second_run_result.cleared_items ⊆ non_fs_labels ∧
    "Runtime state" ∈ second_run_result.cleared_items := by
  have h := reset_cleared_state_amended cleared_env rfl rfl rfl rfl rfl rfl rfl
    second_run_result (by rfl)
  exact ⟨h.1, h.2.1⟩

/-- C10: when the log directory does not exist, `open_logs_folder` first
attempts to create it (recursively, `create_dir_all`) before spawning the
file browser; if creation fails the call returns that error and never
spawns the browser, and if creation succeeds the browser spawn follows. -/
theorem open_logs_creates_missing_dir (env : OpenEnv)
    (hok : env.log_dir_ok = true) (habs : env.dir_present = false) :
    (open_logs_folder env).2.head? = some FolderAction.createDir ∧
    (∀ m, env.create_fail = some m →
      open_logs_folder env =
        (Except.error ("Failed to create log directory: " ++ m),
         [FolderAction.createDir])) ∧
    (env.create_fail = none →
      (open_logs_folder env).2 =
        [FolderAction.createDir, FolderAction.spawnBrowser]) := by
  have hbody : open_logs_folder env =
      match env.create_fail with
      | some m =>
        (Except.error ("Failed to create log directory: " ++ m), [FolderAction.createDir])
      | none =>
        match env.spawn_fail with
        | some m =>
          (Except.error ("Failed to open folder: " ++ m),
           [FolderAction.createDir, FolderAction.spawnBrowser])
        | none => (Except.ok (), [FolderAction.createDir, FolderAction.spawnBrowser]) := by
    unfold open_logs_folder
    simp [hok, habs]
  refine ⟨?_, ?_, ?_⟩
  · rw [hbody]
    cases env.create_fail with
    | some m => rfl
    | none => cases env.spawn_fail <;> rfl
  · intro m hm
    rw [hbody, hm]
  · intro hn
    rw [hbody, hn]
    cases env.spawn_fail <;> rfl

/-- Witness for C10: a successful creation followed by the browser spawn,
and a failing creation that aborts before the spawn. -/
theorem open_logs_creates_missing_dir_witness :
    (open_logs_folder ⟨true, false, none, none⟩).2 =
      [FolderAction.createDir, FolderAction.spawnBrowser] ∧
    open_logs_folder ⟨true, false, some "denied", none⟩ =
      (Except.error "Failed to create log directory: denied",
       [FolderAction.createDir]) := by
  constructor
  · exact (open_logs_creates_missing_dir ⟨true, false, none, none⟩ rfl rfl).2.2 rfl
  · exact (open_logs_creates_missing_dir ⟨true, false, some "denied", none⟩ rfl rfl).2.1
      "denied" rfl

end Voicetypr
